import Mathlib

/-!
Verification development for the Dynasty Site updater script (src/main.py).

The script is embedded shallowly:
* JSON/Python values are modelled by `PyVal` (numbers as exact integers and
  rationals; the model does not cover IEEE rounding, `inf`/`nan` float
  literals, or underscores in numeric strings).
* Python exceptions are modelled by `PyErr`; fallible code returns
  `Except PyErr _`.
* The three HTTP responses consumed by `fetch_sleeper_data` and the
  generative-model call made by `generate_site_update_summary` are inputs of
  the embedded functions: `HttpResult` is the outcome of one
  `requests.get` + `raise_for_status` + `.json()` sequence (any
  `requests.exceptions.RequestException`, including an HTTP status error or a
  JSON decoding error, is `HttpResult.failure`), and the generative call is a
  function `String → GenResult`.
-/

/-- A Python/JSON value as produced by `response.json()` and manipulated by
the script.  Dict keys are strings (JSON object keys). -/
inductive PyVal where
  | vNone : PyVal
  | vBool : Bool → PyVal
  | vInt : ℤ → PyVal
  | vFloat : ℚ → PyVal
  | vStr : String → PyVal
  | vList : List PyVal → PyVal
  | vDict : List (String × PyVal) → PyVal
deriving Inhabited

/-- The Python exceptions the script can raise or catch. -/
inductive PyErr where
  | requestException : String → PyErr
  | keyError : String → PyErr
  | attributeError : PyErr
  | typeError : PyErr
  | valueError : PyErr
deriving DecidableEq, Inhabited

/-- Python truthiness (`bool(v)`): `None`, `False`, zero, the empty string and
empty containers are falsy. -/
def pyTruthy : PyVal → Bool
  | .vNone => false
  | .vBool b => b
  | .vInt n => decide (n ≠ 0)
  | .vFloat q => decide (q ≠ 0)
  | .vStr s => decide (s ≠ "")
  | .vList xs => !xs.isEmpty
  | .vDict kvs => !kvs.isEmpty

/-- The numeric value of a Python number (`bool` counts as a number, as in
Python); `none` for non-numbers. -/
def asNum? : PyVal → Option ℚ
  | .vBool b => some (if b then 1 else 0)
  | .vInt n => some (n : ℚ)
  | .vFloat q => some q
  | _ => none

/-- Python `==` on the values of the model.  Numbers compare by numeric value
across `bool`/`int`/`float`; strings, `None`, lists and dicts compare
structurally; values of different non-numeric kinds are unequal (no
exception).  Deviation from CPython: dict `==` here is sensitive to entry
order, while CPython ignores insertion order; the dicts the script compares
only arise in degenerate inputs. -/
def pyEq : PyVal → PyVal → Bool
  | .vBool a, .vBool b => decide (a = b)
  | .vBool a, .vInt b => decide ((if a then (1 : ℚ) else 0) = (b : ℚ))
  | .vBool a, .vFloat b => decide ((if a then (1 : ℚ) else 0) = b)
  | .vInt a, .vBool b => decide ((a : ℚ) = (if b then (1 : ℚ) else 0))
  | .vInt a, .vInt b => decide (a = b)
  | .vInt a, .vFloat b => decide ((a : ℚ) = b)
  | .vFloat a, .vBool b => decide (a = (if b then (1 : ℚ) else 0))
  | .vFloat a, .vInt b => decide (a = (b : ℚ))
  | .vFloat a, .vFloat b => decide (a = b)
  | .vNone, .vNone => true
  | .vStr a, .vStr b => decide (a = b)
  | .vList xs, .vList ys => goList xs ys
  | .vDict kvs, .vDict lvs => goDict kvs lvs
  | _, _ => false
where
  goList : List PyVal → List PyVal → Bool
    | [], [] => true
    | x :: xs, y :: ys => pyEq x y && goList xs ys
    | _, _ => false
  goDict : List (String × PyVal) → List (String × PyVal) → Bool
    | [], [] => true
    | (k1, v1) :: r1, (k2, v2) :: r2 => decide (k1 = k2) && pyEq v1 v2 && goDict r1 r2
    | _, _ => false

/-- CPython string `<`: lexicographic comparison of the code-point
sequences. -/
def strLt (a b : String) : Bool := go a.data b.data
where
  go : List Char → List Char → Bool
    | [], [] => false
    | [], _ :: _ => true
    | _ :: _, [] => false
    | x :: xs, y :: ys => if x = y then go xs ys else decide (x < y)

/-- Python `<` on the values of the model: numbers compare numerically across
kinds, strings and lists lexicographically; every other combination raises
`TypeError`, as CPython does. -/
def pyLt : PyVal → PyVal → Except PyErr Bool
  | .vBool a, .vBool b => .ok (decide ((if a then (1 : ℚ) else 0) < (if b then (1 : ℚ) else 0)))
  | .vBool a, .vInt b => .ok (decide ((if a then (1 : ℚ) else 0) < (b : ℚ)))
  | .vBool a, .vFloat b => .ok (decide ((if a then (1 : ℚ) else 0) < b))
  | .vInt a, .vBool b => .ok (decide ((a : ℚ) < (if b then (1 : ℚ) else 0)))
  | .vInt a, .vInt b => .ok (decide (a < b))
  | .vInt a, .vFloat b => .ok (decide ((a : ℚ) < b))
  | .vFloat a, .vBool b => .ok (decide (a < (if b then (1 : ℚ) else 0)))
  | .vFloat a, .vInt b => .ok (decide (a < (b : ℚ)))
  | .vFloat a, .vFloat b => .ok (decide (a < b))
  | .vStr a, .vStr b => .ok (strLt a b)
  | .vList xs, .vList ys => goList xs ys
  | _, _ => .error .typeError
where
  goList : List PyVal → List PyVal → Except PyErr Bool
    | [], [] => .ok false
    | [], _ :: _ => .ok true
    | _ :: _, [] => .ok false
    | x :: xs, y :: ys => if pyEq x y then goList xs ys else pyLt x y

/-- Looks a string key up in the entry list of a model dict (entry lists are
built with unique keys, mirroring Python dicts). -/
def dictLookup (kvs : List (String × PyVal)) (k : String) : Option PyVal :=
  match kvs with
  | [] => none
  | (k0, v0) :: rest => if k0 = k then some v0 else dictLookup rest k

/-- Models `v.get(k, dflt)`: only dicts have a `get` method; any other value
raises `AttributeError`. -/
def dictGet (v : PyVal) (k : String) (dflt : PyVal) : Except PyErr PyVal :=
  match v with
  | .vDict kvs => .ok ((dictLookup kvs k).getD dflt)
  | _ => .error .attributeError

/-- Models `v[k]` for a string literal `k`: a dict lookup raising `KeyError`
when the key is absent; subscripting any other value with a string raises
`TypeError`. -/
def pySubscr (v : PyVal) (k : String) : Except PyErr PyVal :=
  match v with
  | .vDict kvs =>
    match dictLookup kvs k with
    | some x => .ok x
    | none => .error (.keyError k)
  | _ => .error .typeError

/-- Models `for x in v`: lists yield their elements, strings their one-element
character strings, dicts their keys; other values raise `TypeError`. -/
def pyIter : PyVal → Except PyErr (List PyVal)
  | .vList xs => .ok xs
  | .vStr s => .ok (s.data.map (fun c => .vStr (String.singleton c)))
  | .vDict kvs => .ok (kvs.map (fun kv => .vStr kv.1))
  | _ => .error .typeError

/-- Whether a value is hashable in CPython: of the JSON value kinds, lists
and dicts are unhashable, everything else is hashable. -/
def pyHashable : PyVal → Bool
  | .vList _ => false
  | .vDict _ => false
  | _ => true

/-- Insertion of a hashable key into a Python dict: an existing `==`-equal
key keeps its position (and its original key object) and gets the new value;
otherwise the binding is appended in insertion order. -/
def mapInsertHashable (m : List (PyVal × PyVal)) (k v : PyVal) : List (PyVal × PyVal) :=
  match m with
  | [] => [(k, v)]
  | (k0, v0) :: rest =>
    if pyEq k0 k then (k0, v) :: rest else (k0, v0) :: mapInsertHashable rest k v

/-- Models `m[k] = v` on a Python dict: CPython hashes the key first and
raises `TypeError` for an unhashable key (a list or dict); a hashable key is
inserted with `mapInsertHashable`. -/
def mapInsert (m : List (PyVal × PyVal)) (k v : PyVal) : Except PyErr (List (PyVal × PyVal)) :=
  if pyHashable k then .ok (mapInsertHashable m k v) else .error .typeError

/-- The membership test proper on the entry list of a dict built with
`mapInsert` (keys in such a dict are always hashable). -/
def mapContainsB (m : List (PyVal × PyVal)) (k : PyVal) : Bool :=
  m.any (fun kv => pyEq kv.1 k)

/-- Models `k in m` on a Python dict: CPython hashes the key first and
raises `TypeError` for an unhashable key (a list or dict); for hashable keys
it is the membership test. -/
def mapContains (m : List (PyVal × PyVal)) (k : PyVal) : Except PyErr Bool :=
  if pyHashable k then .ok (mapContainsB m k) else .error .typeError

/-- Lookup in a dict built with `mapInsert`, with a default for the absent
case (the script only looks up keys it has just tested with `in`). -/
def mapGetD (m : List (PyVal × PyVal)) (k : PyVal) (dflt : PyVal) : PyVal :=
  match m.find? (fun kv => pyEq kv.1 k) with
  | some kv => kv.2
  | none => dflt

/-- The whitespace characters `float()` strips from a string argument. -/
def isPyFloatSpace (c : Char) : Bool :=
  decide (c = ' ') || decide (c = Char.ofNat 9) || decide (c = Char.ofNat 10) ||
    decide (c = Char.ofNat 13) || decide (c = Char.ofNat 11) || decide (c = Char.ofNat 12)

/-- The natural number denoted by a list of decimal digit characters. -/
def digitsToNat (ds : List Char) : ℕ :=
  ds.foldl (fun a c => a * 10 + (c.toNat - 48)) 0

/-- Splits a character list at the first `e`/`E`, keeping what follows it
separately when present. -/
def splitOnExpChar : List Char → List Char × Option (List Char)
  | [] => ([], none)
  | c :: t =>
    if decide (c = 'e') || decide (c = 'E') then ([], some t)
    else
      let r := splitOnExpChar t
      (c :: r.1, r.2)

/-- Parses the mantissa of a float literal: digits with at most one decimal
point, at least one digit overall. -/
def parseMantissa (cs : List Char) : Option ℚ :=
  let intPart := cs.takeWhile (fun c => c.isDigit)
  let rest := cs.dropWhile (fun c => c.isDigit)
  match rest with
  | [] => if intPart.isEmpty then none else some ((digitsToNat intPart : ℤ) : ℚ)
  | '.' :: fr =>
    if fr.all (fun c => c.isDigit) && (!intPart.isEmpty || !fr.isEmpty) then
      some ((digitsToNat intPart : ℚ) + (digitsToNat fr : ℚ) / (10 : ℚ) ^ fr.length)
    else none
  | _ => none

/-- Parses the exponent of a float literal: an optional sign and at least one
digit. -/
def parseExp (cs : List Char) : Option ℤ :=
  match cs with
  | '+' :: t => if !t.isEmpty && t.all (fun c => c.isDigit) then some (digitsToNat t : ℤ) else none
  | '-' :: t => if !t.isEmpty && t.all (fun c => c.isDigit) then some (-(digitsToNat t : ℤ)) else none
  | t => if !t.isEmpty && t.all (fun c => c.isDigit) then some (digitsToNat t : ℤ) else none

/-- The exact value of a decimal float literal accepted by Python `float(str)`:
optional surrounding whitespace, optional sign, digits with an optional
decimal point, and an optional exponent.  (The `inf`/`infinity`/`nan`
literals and underscores between digits are outside the model.) -/
def parseFloatQ (s : String) : Option ℚ :=
  let cs := ((s.data.dropWhile isPyFloatSpace).reverse.dropWhile isPyFloatSpace).reverse
  let sgnBody : ℚ × List Char :=
    match cs with
    | '+' :: t => (1, t)
    | '-' :: t => (-1, t)
    | t => (1, t)
  if sgnBody.2.isEmpty then none
  else
    let sp := splitOnExpChar sgnBody.2
    match parseMantissa sp.1, sp.2 with
    | some m, none => some (sgnBody.1 * m)
    | some m, some ec =>
      match parseExp ec with
      | some e => some (sgnBody.1 * m * (10 : ℚ) ^ e)
      | none => none
    | none, _ => none

/-- Python `float(v)`: numbers convert exactly (in the rational model),
strings are parsed as float literals (`ValueError` on failure), and any other
value raises `TypeError`. -/
def pyFloat : PyVal → Except PyErr ℚ
  | .vInt n => .ok (n : ℚ)
  | .vFloat q => .ok q
  | .vBool b => .ok (if b then 1 else 0)
  | .vStr s =>
    match parseFloatQ s with
    | some q => .ok q
    | none => .error .valueError
  | .vNone => .error .typeError
  | .vList _ => .error .typeError
  | .vDict _ => .error .typeError

/-- Lines 56 to 59 of src/main.py: `float(fpts_raw) + float(fpts_decimal_raw) / 100`
inside `try`, with `except (ValueError, TypeError)` defaulting to `0.0`; those
two exceptions are the only ones `float` raises here, so any conversion
failure yields `0.0`. -/
def computeFpts (fpts_raw fpts_decimal_raw : PyVal) : ℚ :=
  match pyFloat fpts_raw, pyFloat fpts_decimal_raw with
  | .ok a, .ok b => a + b / 100
  | _, _ => 0

/-- One entry of `league_standings` (the dict appended at lines 61 to 68 of
src/main.py).  The `wins`, `losses` and `ties` fields hold whatever value the
roster settings held (no coercion in the source); `fpts` is always a float. -/
structure StandingEntry where
  owner_name : PyVal
  team_name : PyVal
  wins : PyVal
  losses : PyVal
  ties : PyVal
  fpts : ℚ

/-- The dict returned by a successful `fetch_sleeper_data`. -/
structure LeagueData where
  league_name : PyVal
  standings : List StandingEntry

/-- The outcome of one `requests.get` + `raise_for_status` + `.json()`
sequence: `failure` is any `requests.exceptions.RequestException` (connection
error, HTTP status error, or JSON decoding error — all subclasses of
`RequestException`); `success` carries the decoded JSON body. -/
inductive HttpResult where
  | failure : String → HttpResult
  | success : PyVal → HttpResult

/-- Performing one of the three requests inside the `try` block. -/
def getResp : HttpResult → Except PyErr PyVal
  | .failure msg => .error (.requestException msg)
  | .success body => .ok body

/-- The body of the `for roster in rosters` loop (lines 42 to 68 of
src/main.py) for one roster: `.ok none` when the roster is skipped,
`.ok (some entry)` when an entry is appended, `.error` when the loop body
raises. -/
def mkEntry (user_map : List (PyVal × PyVal)) (roster : PyVal) : Except PyErr (Option StandingEntry) :=
  match dictGet roster "owner_id" .vNone with
  | .error e => .error e
  | .ok owner_id =>
    if pyTruthy owner_id then
      match mapContains user_map owner_id with
      | .error e => .error e
      | .ok false => .ok none
      | .ok true =>
        let owner_name := mapGetD user_map owner_id .vNone
        match dictGet roster "metadata" (.vDict []) with
        | .error e => .error e
        | .ok md =>
          match dictGet md "team_name" owner_name with
          | .error e => .error e
          | .ok team_name =>
            match dictGet roster "settings" (.vDict []) with
            | .error e => .error e
            | .ok settings =>
              match dictGet settings "wins" (.vInt 0) with
              | .error e => .error e
              | .ok wins =>
                match dictGet settings "losses" (.vInt 0) with
                | .error e => .error e
                | .ok losses =>
                  match dictGet settings "ties" (.vInt 0) with
                  | .error e => .error e
                  | .ok ties =>
                    match dictGet settings "fpts" (.vInt 0) with
                    | .error e => .error e
                    | .ok fpts_raw =>
                      match dictGet settings "fpts_decimal" (.vInt 0) with
                      | .error e => .error e
                      | .ok fpts_decimal_raw =>
                        .ok (some { owner_name := owner_name, team_name := team_name,
                                    wins := wins, losses := losses, ties := ties,
                                    fpts := computeFpts fpts_raw fpts_decimal_raw })
    else .ok none

/-- The dict comprehension at line 38 of src/main.py:
`{user['user_id']: user['display_name'] for user in users}`, evaluated left to
right with later duplicate keys overriding earlier ones. -/
def buildUserMap (users : List PyVal) : Except PyErr (List (PyVal × PyVal)) := go [] users
where
  go (acc : List (PyVal × PyVal)) : List PyVal → Except PyErr (List (PyVal × PyVal))
    | [] => .ok acc
    | user :: rest =>
      match pySubscr user "user_id" with
      | .error e => .error e
      | .ok uid =>
        match pySubscr user "display_name" with
        | .error e => .error e
        | .ok dname =>
          match mapInsert acc uid dname with
          | .error e => .error e
          | .ok acc1 => go acc1 rest

/-- The whole `for roster in rosters` loop: entries are appended in roster
order; the first raising iteration aborts the loop. -/
def buildStandings (user_map : List (PyVal × PyVal)) : List PyVal → Except PyErr (List StandingEntry)
  | [] => .ok []
  | roster :: rest =>
    match mkEntry user_map roster with
    | .error e => .error e
    | .ok none => buildStandings user_map rest
    | .ok (some entry) =>
      match buildStandings user_map rest with
      | .error e => .error e
      | .ok tail => .ok (entry :: tail)

/-- The comparison performed by
`league_standings.sort(key=lambda x: (x['wins'], x['fpts']), reverse=True)`
between the sort keys of two entries: Python `<` on the tuples
`(a['wins'], a['fpts']) < (b['wins'], b['fpts'])` — components are tested
with `==` until the first mismatch, which is compared with `<`; the `fpts`
component is a float, so only the `wins` comparison can raise. -/
def pyKeyLt (a b : StandingEntry) : Except PyErr Bool :=
  if pyEq a.wins b.wins then .ok (decide (a.fpts < b.fpts))
  else pyLt a.wins b.wins

/-- Inserts an entry into an already sorted (descending) list, after every
entry with a strictly greater key and before the first entry whose key is not
greater — the placement a stable descending sort gives an element that
precedes the list elements in the original order. -/
def pyInsertSorted (e : StandingEntry) : List StandingEntry → Except PyErr (List StandingEntry)
  | [] => .ok [e]
  | x :: xs =>
    match pyKeyLt e x with
    | .error err => .error err
    | .ok true =>
      match pyInsertSorted e xs with
      | .error err => .error err
      | .ok r => .ok (x :: r)
    | .ok false => .ok (e :: x :: xs)

/-- Line 71 of src/main.py:
`league_standings.sort(key=lambda x: (x['wins'], x['fpts']), reverse=True)`.
Python `list.sort` with `reverse=True` is a stable descending sort; it is
modelled as a stable insertion sort, which computes the same list whenever
the keys are pairwise comparable and raises `TypeError` (as CPython does)
when an incomparable pair of keys is compared, though the exact comparison
schedule of timsort differs. -/
def pySortStandings : List StandingEntry → Except PyErr (List StandingEntry)
  | [] => .ok []
  | e :: rest =>
    match pySortStandings rest with
    | .error err => .error err
    | .ok s => pyInsertSorted e s

/-- The body of the `try` block of `fetch_sleeper_data` (lines 25 to 73 of
src/main.py), in source order: league detail request, league name lookup
(`.get` on the decoded body, defaulting to the placeholder), rosters request,
users request, user map comprehension, roster loop, sort, and the result
dict. -/
def fetchBody (lr rr ur : HttpResult) : Except PyErr LeagueData :=
  match getResp lr with
  | .error e => .error e
  | .ok leagueBody =>
    match dictGet leagueBody "name" (.vStr "Your Dynasty League") with
    | .error e => .error e
    | .ok league_name =>
      match getResp rr with
      | .error e => .error e
      | .ok rostersBody =>
        match getResp ur with
        | .error e => .error e
        | .ok usersBody =>
          match pyIter usersBody with
          | .error e => .error e
          | .ok users =>
            match buildUserMap users with
            | .error e => .error e
            | .ok user_map =>
              match pyIter rostersBody with
              | .error e => .error e
              | .ok rosters =>
                match buildStandings user_map rosters with
                | .error e => .error e
                | .ok league_standings =>
                  match pySortStandings league_standings with
                  | .error e => .error e
                  | .ok sorted =>
                    .ok { league_name := league_name, standings := sorted }

/-- `fetch_sleeper_data` (lines 17 to 77 of src/main.py): the `try` body with
`except requests.exceptions.RequestException` returning `None`; any other
exception raised inside the body propagates. -/
def fetch_sleeper_data (lr rr ur : HttpResult) : Except PyErr (Option LeagueData) :=
  match fetchBody lr rr ur with
  | .ok d => .ok (some d)
  | .error (.requestException _) => .ok none
  | .error e => .error e

/-- A single apostrophe, the quote CPython repr prefers for strings. -/
def pyQuote : String := String.singleton (Char.ofNat 39)

/-- Removes `fuel`-bounded many factors `p` from `n`, returning the count and
the remaining cofactor. -/
def factorOut (p : ℕ) : ℕ → ℕ → ℕ × ℕ
  | 0, n => (0, n)
  | fuel + 1, n =>
    if 1 < p ∧ n ≠ 0 ∧ p ∣ n then
      let r := factorOut p fuel (n / p)
      (r.1 + 1, r.2)
    else (0, n)

/-- CPython `str()` of a (finite) float whose exact value is the rational `q`:
a plain signed decimal expansion with at least one fractional digit.  The
model keeps plain notation for all magnitudes (CPython switches to exponent
notation outside `1e-4 ≤ |x| < 1e16`) and falls back to a `num/den` rendering
for denominators that are not products of 2 and 5 (values no Python float
takes). -/
def floatRepr (q : ℚ) : String :=
  let sign := if q < 0 then "-" else ""
  let a := |q|
  let f2 := factorOut 2 a.den a.den
  let f5 := factorOut 5 f2.2 f2.2
  if f5.2 = 1 then
    let e := max f2.1 f5.1
    if e = 0 then sign ++ toString a.num.natAbs ++ ".0"
    else
      let scaled := a.num.natAbs * ((10 : ℕ) ^ e / a.den)
      let ip := scaled / 10 ^ e
      let fp := scaled % 10 ^ e
      let fpDigits := toString fp
      let pad := String.mk (List.replicate (e - fpDigits.length) '0')
      sign ++ toString ip ++ "." ++ pad ++ fpDigits
  else sign ++ toString a.num.natAbs ++ "/" ++ toString a.den

/-- CPython repr of a value: like `str` but with strings quoted (quote choice
and character escaping inside the string are not modelled). -/
def pyRepr : PyVal → String
  | .vNone => "None"
  | .vBool true => "True"
  | .vBool false => "False"
  | .vInt n => toString n
  | .vFloat q => floatRepr q
  | .vStr s => pyQuote ++ s ++ pyQuote
  | .vList xs => "[" ++ goList xs ++ "]"
  | .vDict kvs => "\x7b" ++ goDict kvs ++ "\x7d"
where
  goList : List PyVal → String
    | [] => ""
    | [x] => pyRepr x
    | x :: xs => pyRepr x ++ ", " ++ goList xs
  goDict : List (String × PyVal) → String
    | [] => ""
    | [(k, v)] => pyQuote ++ k ++ pyQuote ++ ": " ++ pyRepr v
    | (k, v) :: kvs => pyQuote ++ k ++ pyQuote ++ ": " ++ pyRepr v ++ ", " ++ goDict kvs

/-- Python `str(v)`, as interpolation in an f-string applies it: strings pass
through, every other value renders as its repr. -/
def pyStr : PyVal → String
  | .vStr s => s
  | v => pyRepr v

/-- Rounds to the nearest integer, ties to the even integer — the rounding of
CPython float formatting. -/
def roundHalfEven (x : ℚ) : ℤ :=
  let f := ⌊x⌋
  let r := x - (f : ℚ)
  if r < 1 / 2 then f
  else if 1 / 2 < r then f + 1
  else if f % 2 = 0 then f else f + 1

/-- CPython `f"{x:.2f}"` on a float of exact value `q`: sign, integer part,
and exactly two fractional digits, rounding half to even. -/
def formatFloat2 (q : ℚ) : String :=
  let sign := if q < 0 then "-" else ""
  let n := (roundHalfEven (|q| * 100)).toNat
  let ip := n / 100
  let fp := n % 100
  sign ++ toString ip ++ "." ++ (if fp < 10 then "0" else "") ++ toString fp

/-- The outcome of `model.generate_content(prompt)` followed by
`response.text`: `success` is the returned text, `fault` any raised
exception (rendered as the string `str(e)` interpolates). -/
inductive GenResult where
  | success : String → GenResult
  | fault : String → GenResult

/-- The fixed message returned when no league data is available (line 82 of
src/main.py). -/
def noDataMsg : String := "Could not fetch league data to generate a summary."

/-- The `prompt_parts` list built at lines 87 to 103 of src/main.py, in
order: the five preamble strings (two of them interpolating the league name
and the season), one line per standing entry, and the closing instruction
(written in the source as two adjacent string literals, which Python joins
into one). -/
def prompt_parts (league_name : PyVal) (season : String) (standings : List StandingEntry) : List String :=
  [ "You are an AI assistant for a fantasy football dynasty league website. ",
    "Your task is to generate a concise, engaging summary of the current league standings based on the provided data. ",
    "Highlight top performers, interesting facts, or key takeaways that would be useful for a website update. ",
    "The data is for the " ++ pyStr league_name ++ " league for the " ++ season ++ " season. ",
    "Here are the current standings:\n\n" ]
  ++ standings.map (fun team =>
      "- " ++ pyStr team.team_name ++ " (" ++ pyStr team.owner_name ++ "): " ++
        pyStr team.wins ++ "-" ++ pyStr team.losses ++ " (" ++ pyStr team.ties ++
        " ties), " ++ formatFloat2 team.fpts ++ " Fpts\n")
  ++ [ "\nGenerate the summary in a friendly, engaging tone, suitable for a fan-focused website. Keep it under 200 words." ]

/-- Line 105 of src/main.py: `prompt = "".join(prompt_parts)`. -/
def buildPrompt (league_name : PyVal) (season : String) (standings : List StandingEntry) : String :=
  String.join (prompt_parts league_name season standings)

/-- `generate_site_update_summary` (lines 79 to 112 of src/main.py) together
with the list of prompts it submits to the generative model.  The argument
`league_data_obj` is the value `fetch_sleeper_data` handed to the caller
(`None` or the result dict, modelled as `Option LeagueData`); the guard
`if not league_data_obj or not league_data_obj['standings']` is true exactly
when the object is `None` (the result dict itself always has two keys, hence
is truthy) or the standings list is empty.  On the generative call raising,
the handler returns `f"Error generating content with GenAI: {e}"`. -/
def generateSummaryRun (gen : String → GenResult) (league_data_obj : Option LeagueData)
    (season : String) : String × List String :=
  match league_data_obj with
  | none => (noDataMsg, [])
  | some obj =>
    if obj.standings.isEmpty then (noDataMsg, [])
    else
      let prompt := buildPrompt obj.league_name season obj.standings
      match gen prompt with
      | .success t => (t, [prompt])
      | .fault m => ("Error generating content with GenAI: " ++ m, [prompt])

/-- The string `generate_site_update_summary` returns. -/
def generate_site_update_summary (gen : String → GenResult) (league_data_obj : Option LeagueData)
    (season : String) : String :=
  (generateSummaryRun gen league_data_obj season).1

/-- The value `roster.get('settings', {}).get(k, 0)` yields on a roster
record whose `settings` field is absent or a record (the shapes on which the
loop body reaches the settings lookups); the default `0` on other shapes,
where the loop body raises before using it. -/
def settingsField (roster : PyVal) (k : String) : PyVal :=
  match roster with
  | .vDict kvs =>
    match dictLookup kvs "settings" with
    | some (.vDict s) => (dictLookup s k).getD (.vInt 0)
    | _ => .vInt 0
  | _ => .vInt 0

/-- The value stored under `k` in the `metadata` record of a roster record,
when the roster has a metadata record holding `k`. -/
def metadataLookup (roster : PyVal) (k : String) : Option PyVal :=
  match roster with
  | .vDict kvs =>
    match dictLookup kvs "metadata" with
    | some (.vDict m) => dictLookup m k
    | _ => none
  | _ => none

/-- The value `roster.get('owner_id')` yields on a roster record. -/
def ownerIdOf (roster : PyVal) : PyVal :=
  match roster with
  | .vDict kvs => (dictLookup kvs "owner_id").getD .vNone
  | _ => .vNone

/-- An optional field value that is either absent or a record. -/
def RecordOrAbsent : Option PyVal → Prop
  | none => True
  | some (.vDict _) => True
  | some _ => False

/-- A roster of the shape the external API documents for `RawRoster` (spec
section 3): a record whose optional `metadata` and `settings` fields, when
present, are records. -/
def WellShapedRoster (roster : PyVal) : Prop :=
  match roster with
  | .vDict kvs =>
    RecordOrAbsent (dictLookup kvs "metadata") ∧ RecordOrAbsent (dictLookup kvs "settings")
  | _ => False

/-- The guard of the roster loop, `if owner_id and owner_id in user_map`, in
the cases where it evaluates without raising: a truthy unhashable `owner_id`
instead makes the membership test raise `TypeError`. -/
def includedRoster (user_map : List (PyVal × PyVal)) (roster : PyVal) : Bool :=
  pyTruthy (ownerIdOf roster) && pyHashable (ownerIdOf roster) &&
    mapContainsB user_map (ownerIdOf roster)

/-- Whether the loop body appends an entry for this roster. -/
def yieldsEntry (user_map : List (PyVal × PyVal)) (roster : PyVal) : Bool :=
  match mkEntry user_map roster with
  | .ok (some _) => true
  | _ => false

/-- An entry whose `wins` value is a Python number. -/
def numericWins (e : StandingEntry) : Prop := (asNum? e.wins).isSome

/-- The numeric value of the `wins` field (meaningful under `numericWins`). -/
def winsQ (e : StandingEntry) : ℚ := (asNum? e.wins).getD 0

/-- The sort key of an entry with numeric wins, as a pair of rationals. -/
def entryKeyQ (e : StandingEntry) : ℚ × ℚ := (winsQ e, e.fpts)

/-- Strict lexicographic order on rational pairs — the order Python puts on
the sort keys `(wins, fpts)` when the wins are numbers. -/
def lexLt (p q : ℚ × ℚ) : Prop := p.1 < q.1 ∨ (p.1 = q.1 ∧ p.2 < q.2)

/-- `a` sorts no lower than `b`: the relation that holds along a descending
sorted list. -/
def keyGe (a b : StandingEntry) : Prop := ¬ lexLt (entryKeyQ a) (entryKeyQ b)

instance (p q : ℚ × ℚ) : Decidable (lexLt p q) := by unfold lexLt; infer_instance

/-- The preamble the spec describes for the prompt: the fixed instructions
with the league name and season interpolated. -/
def specPreamble (league_name : PyVal) (season : String) : String :=
  "You are an AI assistant for a fantasy football dynasty league website. " ++
    "Your task is to generate a concise, engaging summary of the current league standings based on the provided data. " ++
    "Highlight top performers, interesting facts, or key takeaways that would be useful for a website update. " ++
    "The data is for the " ++ pyStr league_name ++ " league for the " ++ season ++ " season. " ++
    "Here are the current standings:\n\n"

/-- The per-entry line format the spec states for the prompt. -/
def specEntryLine (team : StandingEntry) : String :=
  "- " ++ pyStr team.team_name ++ " (" ++ pyStr team.owner_name ++ "): " ++
    pyStr team.wins ++ "-" ++ pyStr team.losses ++ " (" ++ pyStr team.ties ++
    " ties), " ++ formatFloat2 team.fpts ++ " Fpts\n"

/-- The fixed closing instruction the spec states for the prompt. -/
def specClosing : String :=
  "\nGenerate the summary in a friendly, engaging tone, suitable for a fan-focused website. Keep it under 200 words."

/-- The prompt shape the spec describes: preamble, one line per entry in
standings order, closing instruction. -/
def specPromptOf (league_name : PyVal) (season : String) (standings : List StandingEntry) : String :=
  specPreamble league_name season ++ (standings.map specEntryLine).foldr (· ++ ·) "" ++ specClosing

/-- A user map with the single owner `u1` named `Alice`. -/
def cUm : List (PyVal × PyVal) := [(.vStr "u1", .vStr "Alice")]

/-- A roster whose `owner_id` is a non-empty list: truthy but unhashable. -/
def c4badRoster : PyVal := .vDict [("owner_id", .vList [.vStr "x"])]

/-- League-detail response for the C4 run. -/
def c4lr : HttpResult := .success (.vDict [("name", .vStr "L")])

/-- Rosters response for the C4 run: only the unhashable-owner roster. -/
def c4rr : HttpResult := .success (.vList [c4badRoster])

/-- Users response for the C4 run. -/
def c4ur : HttpResult :=
  .success (.vList [.vDict [("user_id", .vStr "u1"), ("display_name", .vStr "Alice")]])

/-- A roster for `u1` with no `metadata` field (hence no custom team name). -/
def c6roster : PyVal :=
  .vDict [("owner_id", .vStr "u1"), ("settings", .vDict [("wins", .vInt 3)])]

/-- The entry the loop body builds from `c6roster`: the team name falls back
to the display name of the owner. -/
def c6entry : StandingEntry :=
  { owner_name := .vStr "Alice", team_name := .vStr "Alice", wins := .vInt 3,
    losses := .vInt 0, ties := .vInt 0, fpts := 0 }

/-- A roster for `u1` whose metadata holds the key `team_name` with value
`None`. -/
def c9roster : PyVal :=
  .vDict [("owner_id", .vStr "u1"), ("metadata", .vDict [("team_name", .vNone)])]

/-- The entry the loop body builds from `c9roster`: the stored `None` is kept
as the team name, the fallback does not apply. -/
def c9entry : StandingEntry :=
  { owner_name := .vStr "Alice", team_name := .vNone, wins := .vInt 0,
    losses := .vInt 0, ties := .vInt 0, fpts := 0 }

/-- A one-team league report with a non-empty standings list. -/
def c7data : LeagueData :=
  { league_name := .vStr "L",
    standings := [{ owner_name := .vStr "Alice", team_name := .vStr "T",
                    wins := .vInt 1, losses := .vInt 0, ties := .vInt 0, fpts := 0 }] }

/-- Roster settings holding `fpts` but no `fpts_decimal`. -/
def c1settings : List (String × PyVal) := [("fpts", .vInt 100)]

/-- A roster whose settings lack the `fpts_decimal` field. -/
def c1roster : PyVal := .vDict [("owner_id", .vStr "u1"), ("settings", .vDict c1settings)]

/-- League-detail response for the C1 run. -/
def c1lr : HttpResult := .success (.vDict [("name", .vStr "L")])

/-- Rosters response for the C1 run. -/
def c1rr : HttpResult := .success (.vList [c1roster])

/-- Users response for the C1 run. -/
def c1ur : HttpResult :=
  .success (.vList [.vDict [("user_id", .vStr "u1"), ("display_name", .vStr "Alice")]])

/-- The entry built from `c1roster`: the missing `fpts_decimal` defaults to
`0`, so `fpts` is `float(100) + float(0)/100 = 100`, not `0.0`. -/
def c1entry : StandingEntry :=
  { owner_name := .vStr "Alice", team_name := .vStr "Alice", wins := .vInt 0,
    losses := .vInt 0, ties := .vInt 0, fpts := 100 }

/-- The report of the C1 run. -/
def c1data : LeagueData := { league_name := .vStr "L", standings := [c1entry] }

/-- League-detail response for the C3 run. -/
def c3lr : HttpResult := .success (.vDict [("name", .vStr "L")])

/-- Rosters response for the C3 run. -/
def c3rr : HttpResult := .success (.vList [])

/-- Users response for the C3 run: one user record without a `user_id` key —
a malformed record shape. -/
def c3ur : HttpResult := .success (.vList [.vDict []])

/-- A roster whose `wins` setting is the string `"9"`. -/
def c10r9 : PyVal :=
  .vDict [("owner_id", .vStr "u9"), ("settings", .vDict [("wins", .vStr "9")])]

/-- A roster whose `wins` setting is the string `"10"`. -/
def c10r10 : PyVal :=
  .vDict [("owner_id", .vStr "u10"), ("settings", .vDict [("wins", .vStr "10")])]

/-- League-detail response for the C10 run. -/
def c10lr : HttpResult := .success (.vDict [("name", .vStr "L")])

/-- Rosters response for the C10 run: the `"10"`-wins roster first. -/
def c10rr : HttpResult := .success (.vList [c10r10, c10r9])

/-- Users response for the C10 run. -/
def c10ur : HttpResult := .success (.vList
  [ .vDict [("user_id", .vStr "u9"), ("display_name", .vStr "Bob")],
    .vDict [("user_id", .vStr "u10"), ("display_name", .vStr "Carol")] ])

/-- The entry of the `"9"`-wins roster, with the string kept verbatim. -/
def c10e9 : StandingEntry :=
  { owner_name := .vStr "Bob", team_name := .vStr "Bob", wins := .vStr "9",
    losses := .vInt 0, ties := .vInt 0, fpts := 0 }

/-- The entry of the `"10"`-wins roster, with the string kept verbatim. -/
def c10e10 : StandingEntry :=
  { owner_name := .vStr "Carol", team_name := .vStr "Carol", wins := .vStr "10",
    losses := .vInt 0, ties := .vInt 0, fpts := 0 }

/-- The report of the C10 run: sorted by the string comparison
`"9" > "10"`, so the `"9"`-wins team comes first. -/
def c10data : LeagueData := { league_name := .vStr "L", standings := [c10e9, c10e10] }

/-- Roster A: 10 wins, 1000.5 points. -/
def c2rA : PyVal := .vDict [("owner_id", .vStr "u1"),
  ("metadata", .vDict [("team_name", .vStr "A")]),
  ("settings", .vDict [("wins", .vInt 10), ("fpts", .vInt 1000), ("fpts_decimal", .vInt 50)])]

/-- Roster B: 10 wins, 1200.0 points. -/
def c2rB : PyVal := .vDict [("owner_id", .vStr "u2"),
  ("metadata", .vDict [("team_name", .vStr "B")]),
  ("settings", .vDict [("wins", .vInt 10), ("fpts", .vInt 1200)])]

/-- Roster C: 9 wins, 2000.0 points. -/
def c2rC : PyVal := .vDict [("owner_id", .vStr "u3"),
  ("metadata", .vDict [("team_name", .vStr "C")]),
  ("settings", .vDict [("wins", .vInt 9), ("fpts", .vInt 2000)])]

/-- League-detail response for the C2 run. -/
def c2lr : HttpResult := .success (.vDict [("name", .vStr "L")])

/-- Rosters response for the C2 run, in input order A, B, C. -/
def c2rr : HttpResult := .success (.vList [c2rA, c2rB, c2rC])

/-- Users response for the C2 run. -/
def c2ur : HttpResult := .success (.vList
  [ .vDict [("user_id", .vStr "u1"), ("display_name", .vStr "a")],
    .vDict [("user_id", .vStr "u2"), ("display_name", .vStr "b")],
    .vDict [("user_id", .vStr "u3"), ("display_name", .vStr "c")] ])

/-- The entry of roster A. -/
def c2eA : StandingEntry :=
  { owner_name := .vStr "a", team_name := .vStr "A", wins := .vInt 10,
    losses := .vInt 0, ties := .vInt 0, fpts := 2001 / 2 }

/-- The entry of roster B. -/
def c2eB : StandingEntry :=
  { owner_name := .vStr "b", team_name := .vStr "B", wins := .vInt 10,
    losses := .vInt 0, ties := .vInt 0, fpts := 1200 }

/-- The entry of roster C. -/
def c2eC : StandingEntry :=
  { owner_name := .vStr "c", team_name := .vStr "C", wins := .vInt 9,
    losses := .vInt 0, ties := .vInt 0, fpts := 2000 }

/-- The report of the C2 run: sorted descending by wins then fpts. -/
def c2data : LeagueData := { league_name := .vStr "L", standings := [c2eB, c2eA, c2eC] }

theorem lexLt_irrefl (p : ℚ × ℚ) : ¬ lexLt p p := by
  simp [lexLt]

theorem lexLt_ne {p q : ℚ × ℚ} (h : lexLt p q) : p ≠ q := by
  rintro rfl; exact lexLt_irrefl p h

theorem lexLt_trans {p q r : ℚ × ℚ} (h1 : lexLt p q) (h2 : lexLt q r) : lexLt p r := by
  rcases h1 with h1 | ⟨h1, h1'⟩ <;> rcases h2 with h2 | ⟨h2, h2'⟩
  · exact Or.inl (lt_trans h1 h2)
  · exact Or.inl (h2 ▸ h1)
  · exact Or.inl (h1 ▸ h2)
  · exact Or.inr ⟨h1.trans h2, lt_trans h1' h2'⟩

theorem lexLt_connex {p q : ℚ × ℚ} (h : ¬ lexLt p q) : q = p ∨ lexLt q p := by
  rcases lt_trichotomy p.1 q.1 with h1 | h1 | h1
  · exact absurd (Or.inl h1) h
  · rcases lt_trichotomy p.2 q.2 with h2 | h2 | h2
    · exact absurd (Or.inr ⟨h1, h2⟩) h
    · left; exact Prod.ext h1.symm h2.symm
    · right; exact Or.inr ⟨h1.symm, h2⟩
  · right; exact Or.inl h1

theorem not_lexLt_of_ge {p q r : ℚ × ℚ} (h1 : ¬ lexLt p q) (h2 : ¬ lexLt q r) :
    ¬ lexLt p r := by
  intro hpr
  rcases lexLt_connex h1 with rfl | hqp
  · exact h2 hpr
  · rcases lexLt_connex h2 with rfl | hrq
    · exact h2 (lexLt_trans hqp hpr)
    · exact lexLt_irrefl q (lexLt_trans hqp (lexLt_trans hpr hrq))

theorem pyEq_num {a b : PyVal} {x y : ℚ} (ha : asNum? a = some x) (hb : asNum? b = some y) :
    pyEq a b = decide (x = y) := by
  cases a <;> cases b <;> simp_all [asNum?, pyEq]
  case vBool.vBool a b => subst ha hb; cases a <;> cases b <;> norm_num
  case vInt.vInt a b => subst ha hb; exact Int.cast_inj.symm

theorem pyLt_num {a b : PyVal} {x y : ℚ} (ha : asNum? a = some x) (hb : asNum? b = some y) :
    pyLt a b = .ok (decide (x < y)) := by
  cases a <;> cases b <;> simp_all [asNum?, pyLt]
  case vInt.vInt a b => subst ha hb; exact Int.cast_lt.symm

theorem pyKeyLt_num {a b : StandingEntry} (ha : numericWins a) (hb : numericWins b) :
    pyKeyLt a b = .ok (decide (lexLt (entryKeyQ a) (entryKeyQ b))) := by
  rcases Option.isSome_iff_exists.mp ha with ⟨x, hx⟩
  rcases Option.isSome_iff_exists.mp hb with ⟨y, hy⟩
  have hkey_a : entryKeyQ a = (x, a.fpts) := by simp [entryKeyQ, winsQ, hx]
  have hkey_b : entryKeyQ b = (y, b.fpts) := by simp [entryKeyQ, winsQ, hy]
  unfold pyKeyLt
  rw [pyEq_num hx hy, hkey_a, hkey_b]
  by_cases hxy : x = y
  · subst hxy
    have hiff : lexLt (x, a.fpts) (x, b.fpts) ↔ a.fpts < b.fpts := by simp [lexLt]
    simp [hiff]
  · rw [if_neg (by simp [hxy])]
    rw [pyLt_num hx hy]
    simp [lexLt, hxy]

theorem pyInsertSorted_perm {e : StandingEntry} {l l' : List StandingEntry}
    (h : pyInsertSorted e l = .ok l') : l'.Perm (e :: l) := by
  induction l generalizing l' with
  | nil =>
    simp only [pyInsertSorted, Except.ok.injEq] at h
    subst h; exact List.Perm.refl _
  | cons x xs ih =>
    rw [pyInsertSorted] at h
    cases hk : pyKeyLt e x with
    | error err => rw [hk] at h; exact absurd h (by simp)
    | ok b =>
      rw [hk] at h
      cases b with
      | true =>
        cases hr : pyInsertSorted e xs with
        | error err => rw [hr] at h; exact absurd h (by simp)
        | ok r =>
          rw [hr] at h
          simp only [Except.ok.injEq] at h
          subst h
          exact ((ih hr).cons x).trans (List.Perm.swap e x xs)
      | false =>
        simp only [Except.ok.injEq] at h
        subst h; exact List.Perm.refl _

theorem pyInsertSorted_filter {e : StandingEntry} {l l' : List StandingEntry}
    (h : pyInsertSorted e l = .ok l') (he : numericWins e) (hl : ∀ x ∈ l, numericWins x)
    (k : ℚ × ℚ) :
    l'.filter (fun x => decide (entryKeyQ x = k)) =
      (e :: l).filter (fun x => decide (entryKeyQ x = k)) := by
  induction l generalizing l' with
  | nil =>
    simp only [pyInsertSorted, Except.ok.injEq] at h
    subst h; rfl
  | cons x xs ih =>
    rw [pyInsertSorted, pyKeyLt_num he (hl x (List.mem_cons_self x xs))] at h
    by_cases hlt : lexLt (entryKeyQ e) (entryKeyQ x)
    · rw [decide_eq_true hlt] at h
      cases hr : pyInsertSorted e xs with
      | error err => rw [hr] at h; exact absurd h (by simp)
      | ok r =>
        rw [hr] at h
        simp only [Except.ok.injEq] at h
        subst h
        have ihr := ih hr (fun y hy => hl y (List.mem_cons_of_mem x hy))
        by_cases hpx : entryKeyQ x = k
        · have hpe : ¬ entryKeyQ e = k := by
            intro hek
            exact lexLt_irrefl k (by rw [hek, hpx] at hlt; exact hlt)
          simp only [List.filter_cons]
          simp [hpx, hpe, ihr]
        · simp only [List.filter_cons]
          simp only [hpx, decide_False, if_false, ihr]
          by_cases hpe : entryKeyQ e = k <;> simp [List.filter_cons, hpe, hpx]
    · rw [decide_eq_false hlt] at h
      simp only [Except.ok.injEq] at h
      subst h; rfl

theorem pyInsertSorted_sorted {e : StandingEntry} {l l' : List StandingEntry}
    (h : pyInsertSorted e l = .ok l') (he : numericWins e) (hl : ∀ x ∈ l, numericWins x)
    (hs : l.Pairwise keyGe) : l'.Pairwise keyGe := by
  induction l generalizing l' with
  | nil =>
    simp only [pyInsertSorted, Except.ok.injEq] at h
    subst h; exact List.pairwise_singleton _ _
  | cons x xs ih =>
    rw [pyInsertSorted, pyKeyLt_num he (hl x (List.mem_cons_self x xs))] at h
    rcases List.pairwise_cons.mp hs with ⟨hx_all, hxs⟩
    by_cases hlt : lexLt (entryKeyQ e) (entryKeyQ x)
    · rw [decide_eq_true hlt] at h
      cases hr : pyInsertSorted e xs with
      | error err => rw [hr] at h; exact absurd h (by simp)
      | ok r =>
        rw [hr] at h
        simp only [Except.ok.injEq] at h
        subst h
        refine List.pairwise_cons.mpr ⟨?_, ih hr (fun y hy => hl y (List.mem_cons_of_mem x hy)) hxs⟩
        intro y hy
        rcases List.mem_cons.mp ((pyInsertSorted_perm hr).mem_iff.mp hy) with rfl | hy'
        · exact fun hcon => lexLt_irrefl _ (lexLt_trans hlt hcon)
        · exact hx_all y hy'
    · rw [decide_eq_false hlt] at h
      simp only [Except.ok.injEq] at h
      subst h
      refine List.pairwise_cons.mpr ⟨?_, hs⟩
      intro y hy
      rcases List.mem_cons.mp hy with rfl | hy'
      · exact hlt
      · exact not_lexLt_of_ge hlt (hx_all y hy')

theorem pySortStandings_perm {l l' : List StandingEntry}
    (h : pySortStandings l = .ok l') : l'.Perm l := by
  induction l generalizing l' with
  | nil =>
    simp only [pySortStandings, Except.ok.injEq] at h
    subst h; exact List.Perm.refl _
  | cons e rest ih =>
    rw [pySortStandings] at h
    cases hs : pySortStandings rest with
    | error err => rw [hs] at h; exact absurd h (by simp)
    | ok s =>
      rw [hs] at h
      exact (pyInsertSorted_perm h).trans ((ih hs).cons e)

theorem pySortStandings_sorted {l l' : List StandingEntry}
    (h : pySortStandings l = .ok l') (hl : ∀ x ∈ l, numericWins x) :
    l'.Pairwise keyGe := by
  induction l generalizing l' with
  | nil =>
    simp only [pySortStandings, Except.ok.injEq] at h
    subst h; exact List.Pairwise.nil
  | cons e rest ih =>
    rw [pySortStandings] at h
    cases hs : pySortStandings rest with
    | error err => rw [hs] at h; exact absurd h (by simp)
    | ok s =>
      rw [hs] at h
      have hnum_s : ∀ x ∈ s, numericWins x := fun x hx =>
        hl x (List.mem_cons_of_mem e ((pySortStandings_perm hs).mem_iff.mp hx))
      exact pyInsertSorted_sorted h (hl e (List.mem_cons_self e rest)) hnum_s
        (ih hs (fun x hx => hl x (List.mem_cons_of_mem e hx)))

theorem pySortStandings_filter {l l' : List StandingEntry}
    (h : pySortStandings l = .ok l') (hl : ∀ x ∈ l, numericWins x) (k : ℚ × ℚ) :
    l'.filter (fun x => decide (entryKeyQ x = k)) =
      l.filter (fun x => decide (entryKeyQ x = k)) := by
  induction l generalizing l' with
  | nil =>
    simp only [pySortStandings, Except.ok.injEq] at h
    subst h; rfl
  | cons e rest ih =>
    rw [pySortStandings] at h
    cases hs : pySortStandings rest with
    | error err => rw [hs] at h; exact absurd h (by simp)
    | ok s =>
      rw [hs] at h
      have hnum_s : ∀ x ∈ s, numericWins x := fun x hx =>
        hl x (List.mem_cons_of_mem e ((pySortStandings_perm hs).mem_iff.mp hx))
      have h1 := pyInsertSorted_filter h (hl e (List.mem_cons_self e rest)) hnum_s k
      have h2 := ih hs (fun x hx => hl x (List.mem_cons_of_mem e hx))
      rw [h1]
      simp only [List.filter_cons]
      rw [h2]

theorem buildStandings_mem {um : List (PyVal × PyVal)} {rs : List PyVal}
    {l : List StandingEntry} (h : buildStandings um rs = .ok l) :
    ∀ e ∈ l, ∃ r ∈ rs, mkEntry um r = .ok (some e) := by
  induction rs generalizing l with
  | nil =>
    simp only [buildStandings, Except.ok.injEq] at h
    subst h; simp
  | cons r rest ih =>
    rw [buildStandings] at h
    cases hm : mkEntry um r with
    | error err => rw [hm] at h; exact absurd h (by simp)
    | ok o =>
      rw [hm] at h
      cases o with
      | none =>
        intro e he
        rcases ih h e he with ⟨r', hr', he'⟩
        exact ⟨r', List.mem_cons_of_mem _ hr', he'⟩
      | some ent =>
        cases ht : buildStandings um rest with
        | error err => rw [ht] at h; exact absurd h (by simp)
        | ok tail =>
          rw [ht] at h
          simp only [Except.ok.injEq] at h
          subst h
          intro e he
          rcases List.mem_cons.mp he with rfl | he'
          · exact ⟨r, List.mem_cons_self _ _, hm⟩
          · rcases ih ht e he' with ⟨r', hr', hee⟩
            exact ⟨r', List.mem_cons_of_mem _ hr', hee⟩

theorem buildStandings_length {um : List (PyVal × PyVal)} {rs : List PyVal}
    {l : List StandingEntry} (h : buildStandings um rs = .ok l) :
    l.length = rs.countP (yieldsEntry um) := by
  induction rs generalizing l with
  | nil =>
    simp only [buildStandings, Except.ok.injEq] at h
    subst h; rfl
  | cons r rest ih =>
    rw [buildStandings] at h
    cases hm : mkEntry um r with
    | error err => rw [hm] at h; exact absurd h (by simp)
    | ok o =>
      rw [hm] at h
      cases o with
      | none =>
        rw [List.countP_cons]
        simp [yieldsEntry, hm, ih h]
      | some ent =>
        cases ht : buildStandings um rest with
        | error err => rw [ht] at h; exact absurd h (by simp)
        | ok tail =>
          rw [ht] at h
          simp only [Except.ok.injEq] at h
          subst h
          rw [List.countP_cons]
          simp [yieldsEntry, hm, ih ht]

theorem mkEntry_ok_some {um : List (PyVal × PyVal)} {roster : PyVal} {e : StandingEntry}
    (h : mkEntry um roster = .ok (some e)) :
    includedRoster um roster = true ∧
    e.owner_name = mapGetD um (ownerIdOf roster) .vNone ∧
    e.wins = settingsField roster "wins" ∧
    e.losses = settingsField roster "losses" ∧
    e.ties = settingsField roster "ties" ∧
    e.fpts = computeFpts (settingsField roster "fpts") (settingsField roster "fpts_decimal") ∧
    (metadataLookup roster "team_name" = none → e.team_name = e.owner_name) ∧
    (∀ v, metadataLookup roster "team_name" = some v → e.team_name = v) := by
  cases roster with
  | vDict kvs =>
    simp only [mkEntry, dictGet] at h
    by_cases htr : pyTruthy ((dictLookup kvs "owner_id").getD .vNone) = true
    case neg =>
      rw [if_neg htr] at h
      exact absurd h (by simp)
    case pos =>
      rw [if_pos htr] at h
      simp only [mapContains] at h
      by_cases hh : pyHashable ((dictLookup kvs "owner_id").getD .vNone) = true
      case neg =>
        rw [if_neg hh] at h
        exact absurd h (by simp)
      case pos =>
        rw [if_pos hh] at h
        cases hC : mapContainsB um ((dictLookup kvs "owner_id").getD .vNone) with
        | false => rw [hC] at h; exact absurd h (by simp)
        | true =>
          rw [hC] at h
          rcases hmdL : dictLookup kvs "metadata" with _ | mv <;> try (cases mv)
          all_goals (rcases hstL : dictLookup kvs "settings" with _ | sv <;> try (cases sv))
          all_goals (simp only [hmdL, hstL, Option.getD_none, Option.getD_some] at h)
          all_goals first
            | (simp only [Except.ok.injEq, Option.some.injEq] at h
               subst h
               refine ⟨?_, ?_, ?_, ?_, ?_, ?_, ?_, ?_⟩ <;>
                 solve
                   | simp [includedRoster, ownerIdOf, htr, hh, hC]
                   | rfl
                   | simp [settingsField, dictLookup, hstL]
                   | (intro hx; simp_all [metadataLookup, dictLookup]))
            | exact absurd h (by simp)
  | vNone => exact absurd h (by simp [mkEntry, dictGet])
  | vBool b => exact absurd h (by simp [mkEntry, dictGet])
  | vInt n => exact absurd h (by simp [mkEntry, dictGet])
  | vFloat q => exact absurd h (by simp [mkEntry, dictGet])
  | vStr s => exact absurd h (by simp [mkEntry, dictGet])
  | vList xs => exact absurd h (by simp [mkEntry, dictGet])

theorem mkEntry_skip_falsy {um : List (PyVal × PyVal)} {kvs : List (String × PyVal)}
    (h : pyTruthy (ownerIdOf (.vDict kvs)) = false) : mkEntry um (.vDict kvs) = .ok none := by
  simp only [ownerIdOf] at h
  simp only [mkEntry, dictGet]
  rw [if_neg (by simp [h])]

theorem mkEntry_skip_notfound {um : List (PyVal × PyVal)} {kvs : List (String × PyVal)}
    (ht : pyTruthy (ownerIdOf (.vDict kvs)) = true)
    (hh : pyHashable (ownerIdOf (.vDict kvs)) = true)
    (hC : mapContainsB um (ownerIdOf (.vDict kvs)) = false) :
    mkEntry um (.vDict kvs) = .ok none := by
  simp only [ownerIdOf] at ht hh hC
  simp only [mkEntry, dictGet, mapContains]
  rw [if_pos ht, if_pos hh, hC]

theorem mkEntry_unhashable_raises {um : List (PyVal × PyVal)} {kvs : List (String × PyVal)}
    (ht : pyTruthy (ownerIdOf (.vDict kvs)) = true)
    (hh : pyHashable (ownerIdOf (.vDict kvs)) = false) :
    mkEntry um (.vDict kvs) = .error .typeError := by
  simp only [ownerIdOf] at ht hh
  simp only [mkEntry, dictGet, mapContains]
  rw [if_pos ht, if_neg (by simp [hh])]

theorem mkEntry_included {um : List (PyVal × PyVal)} {kvs : List (String × PyVal)}
    (hws : WellShapedRoster (.vDict kvs)) (hinc : includedRoster um (.vDict kvs) = true) :
    ∃ e, mkEntry um (.vDict kvs) = .ok (some e) := by
  simp only [WellShapedRoster] at hws
  obtain ⟨hmd, hst⟩ := hws
  simp only [includedRoster, ownerIdOf, Bool.and_eq_true] at hinc
  obtain ⟨⟨ht, hh⟩, hC⟩ := hinc
  rcases hmdL : dictLookup kvs "metadata" with _ | mv <;> try (cases mv)
  all_goals try (simp only [hmdL, RecordOrAbsent] at hmd)
  all_goals (rcases hstL : dictLookup kvs "settings" with _ | sv <;> try (cases sv))
  all_goals try (simp only [hstL, RecordOrAbsent] at hst)
  all_goals exact ⟨_, by
    simp only [mkEntry, dictGet, mapContains]
    rw [if_pos ht, if_pos hh, hC, hmdL, hstL]
    rfl⟩

theorem fetch_ok_parts {lr rr ur : HttpResult} {d : LeagueData}
    (h : fetch_sleeper_data lr rr ur = .ok (some d)) :
    ∃ (users : List PyVal) (user_map : List (PyVal × PyVal)) (rosters : List PyVal)
      (pre : List StandingEntry),
      buildUserMap users = .ok user_map ∧
      buildStandings user_map rosters = .ok pre ∧
      pySortStandings pre = .ok d.standings := by
  unfold fetch_sleeper_data at h
  cases hb : fetchBody lr rr ur with
  | error e =>
    rw [hb] at h
    cases e <;> exact absurd h (by simp)
  | ok d' =>
    rw [hb] at h
    simp only [Except.ok.injEq, Option.some.injEq] at h
    subst h
    unfold fetchBody at hb
    cases hL : getResp lr with
    | error e => simp only [hL] at hb; exact absurd hb (by simp)
    | ok leagueBody =>
      simp only [hL] at hb
      cases hN : dictGet leagueBody "name" (.vStr "Your Dynasty League") with
      | error e => simp only [hN] at hb; exact absurd hb (by simp)
      | ok league_name =>
        simp only [hN] at hb
        cases hR : getResp rr with
        | error e => simp only [hR] at hb; exact absurd hb (by simp)
        | ok rostersBody =>
          simp only [hR] at hb
          cases hU : getResp ur with
          | error e => simp only [hU] at hb; exact absurd hb (by simp)
          | ok usersBody =>
            simp only [hU] at hb
            cases hI : pyIter usersBody with
            | error e => simp only [hI] at hb; exact absurd hb (by simp)
            | ok users =>
              simp only [hI] at hb
              cases hM : buildUserMap users with
              | error e => simp only [hM] at hb; exact absurd hb (by simp)
              | ok user_map =>
                simp only [hM] at hb
                cases hJ : pyIter rostersBody with
                | error e => simp only [hJ] at hb; exact absurd hb (by simp)
                | ok rosters =>
                  simp only [hJ] at hb
                  cases hS : buildStandings user_map rosters with
                  | error e => simp only [hS] at hb; exact absurd hb (by simp)
                  | ok pre =>
                    simp only [hS] at hb
                    cases hT : pySortStandings pre with
                    | error e => simp only [hT] at hb; exact absurd hb (by simp)
                    | ok sorted =>
                      simp only [hT] at hb
                      simp only [Except.ok.injEq] at hb
                      exact ⟨users, user_map, rosters, pre, hM, hS, by rw [← hb]; exact hT⟩

theorem strJoin_cons (s : String) (l : List String) : String.join (s :: l) = s ++ String.join l := by
  have key : ∀ (l : List String) (a : String), l.foldl (· ++ ·) a = a ++ l.foldl (· ++ ·) "" := by
    intro l
    induction l with
    | nil => intro a; simp [String.append_empty]
    | cons x xs ih =>
      intro a
      simp only [List.foldl_cons]
      rw [ih (a ++ x), ih ("" ++ x), String.empty_append, String.append_assoc]
  unfold String.join
  simp only [List.foldl_cons, String.empty_append]
  exact key l s

theorem strJoin_append_singleton (l : List String) (c : String) :
    String.join (l ++ [c]) = l.foldr (· ++ ·) "" ++ c := by
  induction l with
  | nil =>
    simp only [List.nil_append, List.foldr_nil]
    rw [strJoin_cons, String.empty_append]
    simp [String.join, String.append_empty]
  | cons x xs ih =>
    simp only [List.cons_append, List.foldr_cons]
    rw [strJoin_cons, ih, String.append_assoc]

theorem buildPrompt_eq_specPromptOf (league_name : PyVal) (season : String)
    (standings : List StandingEntry) :
    buildPrompt league_name season standings = specPromptOf league_name season standings := by
  unfold buildPrompt prompt_parts specPromptOf specPreamble specClosing
  have hmap : (standings.map (fun team =>
      "- " ++ pyStr team.team_name ++ " (" ++ pyStr team.owner_name ++ "): " ++
        pyStr team.wins ++ "-" ++ pyStr team.losses ++ " (" ++ pyStr team.ties ++
        " ties), " ++ formatFloat2 team.fpts ++ " Fpts\n")) = standings.map specEntryLine := rfl
  simp only [List.cons_append, List.nil_append]
  rw [strJoin_cons, strJoin_cons, strJoin_cons, strJoin_cons, strJoin_cons]
  rw [hmap, strJoin_append_singleton]
  simp [← String.append_assoc]

theorem fetch_league_failure (msg : String) (rr ur : HttpResult) :
    fetch_sleeper_data (.failure msg) rr ur = .ok none := rfl

theorem fetch_rosters_failure {leagueBody nm : PyVal} (msg : String) (ur : HttpResult)
    (hN : dictGet leagueBody "name" (.vStr "Your Dynasty League") = .ok nm) :
    fetch_sleeper_data (.success leagueBody) (.failure msg) ur = .ok none := by
  unfold fetch_sleeper_data fetchBody
  simp [getResp, hN]

theorem fetch_users_failure {leagueBody nm : PyVal} (rostersBody : PyVal) (msg : String)
    (hN : dictGet leagueBody "name" (.vStr "Your Dynasty League") = .ok nm) :
    fetch_sleeper_data (.success leagueBody) (.success rostersBody) (.failure msg) = .ok none := by
  unfold fetch_sleeper_data fetchBody
  simp [getResp, hN]

theorem fetch_error_not_requestException {lr rr ur : HttpResult} {e : PyErr}
    (h : fetch_sleeper_data lr rr ur = .error e) : ∀ msg, e ≠ .requestException msg := by
  intro msg
  unfold fetch_sleeper_data at h
  cases hb : fetchBody lr rr ur with
  | ok d => rw [hb] at h; simp at h
  | error e' => rw [hb] at h; cases e' <;> simp at h <;> subst h <;> simp

/-- C5: given an absent league-data object, or one whose standings list is
empty, `generate_site_update_summary` returns the fixed could-not-fetch
message, and the run submits no prompt to the generative model. -/
theorem c5_no_data_message :
    (∀ (gen : String → GenResult) (season : String),
        generate_site_update_summary gen none season = noDataMsg ∧
          (generateSummaryRun gen none season).2 = []) ∧
    (∀ (gen : String → GenResult) (d : LeagueData) (season : String), d.standings = [] →
        generate_site_update_summary gen (some d) season = noDataMsg ∧
          (generateSummaryRun gen (some d) season).2 = []) ∧
    noDataMsg = "Could not fetch league data to generate a summary." := by
  refine ⟨fun gen season => ⟨rfl, rfl⟩, fun gen d season h => ?_, rfl⟩
  constructor <;> simp [generate_site_update_summary, generateSummaryRun, h]

/-- C5 witness: the empty-standings case at a concrete input. -/
theorem c5_no_data_message_witness :
    generate_site_update_summary (fun _ => .success "S") (some ⟨.vStr "L", []⟩) "2025" =
      "Could not fetch league data to generate a summary." := by
  have h := (c5_no_data_message.2.1 (fun _ => .success "S") ⟨.vStr "L", []⟩ "2025" rfl).1
  rw [h, c5_no_data_message.2.2]

/-- C6: for every entry the loop body produces, the owner name is the display
name the user map holds for the owner id of the roster, the team name falls
back to that owner name when the metadata holds no `team_name` key, and a
present `team_name` key is used as stored. -/
theorem c6_team_name_fallback :
    ∀ (um : List (PyVal × PyVal)) (roster : PyVal) (e : StandingEntry),
      mkEntry um roster = .ok (some e) →
        e.owner_name = mapGetD um (ownerIdOf roster) .vNone ∧
        (metadataLookup roster "team_name" = none → e.team_name = e.owner_name) ∧
        (∀ v, metadataLookup roster "team_name" = some v → e.team_name = v) := by
  intro um roster e h
  have hh := mkEntry_ok_some h
  exact ⟨hh.2.1, hh.2.2.2.2.2.2.1, hh.2.2.2.2.2.2.2⟩

/-- C6 witness: a roster without `metadata.team_name` yields the display name
of its owner as team name. -/
theorem c6_team_name_fallback_witness :
    c6entry.team_name = c6entry.owner_name ∧ c6entry.owner_name = .vStr "Alice" := by
  have hmk : mkEntry cUm c6roster = .ok (some c6entry) := by
    simp [mkEntry, dictGet, dictLookup, mapContains, mapContainsB, pyHashable, mapGetD, pyTruthy, pyEq,
      List.any, List.find?, cUm, c6roster, c6entry]
    norm_num [computeFpts, pyFloat]
  exact ⟨(c6_team_name_fallback cUm c6roster c6entry hmk).2.1 (by simp [metadataLookup, c6roster, dictLookup]), rfl⟩

/-- C9: the team-name fallback applies only when the `team_name` key is
absent from the metadata — a present key is used even when its stored value
is `None` (or empty); concretely, a roster whose metadata holds
`team_name: None` yields an entry whose team name is `None`, not the display
name of its owner. -/
theorem c9_null_team_name_kept :
    (∀ (um : List (PyVal × PyVal)) (roster : PyVal) (e : StandingEntry) (v : PyVal),
        mkEntry um roster = .ok (some e) →
        metadataLookup roster "team_name" = some v → e.team_name = v) ∧
    (mkEntry cUm c9roster = .ok (some c9entry) ∧
      c9entry.team_name = .vNone ∧ c9entry.owner_name = .vStr "Alice" ∧
      c9entry.team_name ≠ c9entry.owner_name) := by
  constructor
  · intro um roster e v h hm
    exact (mkEntry_ok_some h).2.2.2.2.2.2.2 v hm
  · refine ⟨?_, rfl, rfl, by simp [c9entry]⟩
    simp [mkEntry, dictGet, dictLookup, mapContains, mapContainsB, pyHashable, mapGetD, pyTruthy, pyEq,
      List.any, List.find?, cUm, c9roster, c9entry]
    norm_num [computeFpts, pyFloat]

/-- C9 witness: the general part applied at the concrete roster whose
metadata stores `team_name: None`. -/
theorem c9_null_team_name_kept_witness : c9entry.team_name = .vNone :=
  c9_null_team_name_kept.1 cUm c9roster c9entry .vNone c9_null_team_name_kept.2.1
    (by simp [metadataLookup, c9roster, dictLookup])

/-- C7: for a non-empty standings input, a fault raised by the generative
call is caught and turned into a string describing the error rather than
propagated; and on every input the function returns a string that is the
fixed no-data message, the text the generative call returned, or that error
description. -/
theorem c7_generation_fault_handled :
    (∀ (gen : String → GenResult) (d : LeagueData) (season : String) (m : String),
        d.standings ≠ [] →
        gen (buildPrompt d.league_name season d.standings) = .fault m →
        generate_site_update_summary gen (some d) season =
          "Error generating content with GenAI: " ++ m) ∧
    (∀ (gen : String → GenResult) (obj : Option LeagueData) (season : String),
        generate_site_update_summary gen obj season = noDataMsg ∨
        (∃ p t, gen p = .success t ∧ generate_site_update_summary gen obj season = t) ∨
        (∃ p m, gen p = .fault m ∧ generate_site_update_summary gen obj season =
          "Error generating content with GenAI: " ++ m)) := by
  constructor
  · intro gen d season m hne hf
    have hne' : d.standings.isEmpty = false := by
      cases hl : d.standings with
      | nil => exact absurd hl hne
      | cons x xs => simp
    simp [generate_site_update_summary, generateSummaryRun, hne', hf]
  · intro gen obj season
    cases obj with
    | none => left; rfl
    | some d =>
      by_cases he : d.standings.isEmpty
      · left; simp [generate_site_update_summary, generateSummaryRun, he]
      · cases hg : gen (buildPrompt d.league_name season d.standings) with
        | success t =>
          right; left
          exact ⟨_, t, hg, by simp [generate_site_update_summary, generateSummaryRun,
            Bool.eq_false_iff.mpr he, hg]⟩
        | fault m =>
          right; right
          exact ⟨_, m, hg, by simp [generate_site_update_summary, generateSummaryRun,
            Bool.eq_false_iff.mpr he, hg]⟩

/-- C7 witness: a generative call that raises at a concrete non-empty input
yields the error-description string. -/
theorem c7_generation_fault_handled_witness :
    generate_site_update_summary (fun _ => .fault "boom") (some c7data) "2025" =
      "Error generating content with GenAI: " ++ "boom" :=
  c7_generation_fault_handled.1 (fun _ => .fault "boom") c7data "2025" "boom"
    (by simp [c7data]) rfl

/-- C8: for every non-empty standings input, the single prompt the run
submits to the generative model is exactly the deterministic template the
spec describes — the fixed preamble with league name and season
interpolated, one line per standing entry in standings order, and the fixed
closing instruction. -/
theorem c8_prompt_shape :
    ∀ (gen : String → GenResult) (d : LeagueData) (season : String),
      d.standings ≠ [] →
      (generateSummaryRun gen (some d) season).2 =
        [specPromptOf d.league_name season d.standings] := by
  intro gen d season hne
  have hne' : d.standings.isEmpty = false := by
    cases hl : d.standings with
    | nil => exact absurd hl hne
    | cons x xs => simp
  simp only [generateSummaryRun, hne', buildPrompt_eq_specPromptOf, Bool.false_eq_true,
    if_false]
  cases gen (specPromptOf d.league_name season d.standings) <;> rfl

/-- C8 witness: the prompt list at a concrete one-team input. -/
theorem c8_prompt_shape_witness :
    (generateSummaryRun (fun _ => .success "S") (some c7data) "2025").2 =
      [specPromptOf c7data.league_name "2025" c7data.standings] :=
  c8_prompt_shape (fun _ => .success "S") c7data "2025" (by simp [c7data])

/-- C1 counterexample: the claim says `fpts` is `0.0` whenever either source
field is missing, but a run on a roster whose settings hold `fpts = 100` and
no `fpts_decimal` key produces an entry with `fpts = 100 ≠ 0`: a missing
field merely defaults to `0` inside the sum. -/
theorem c1_missing_field_counterexample :
    dictLookup c1settings "fpts_decimal" = none ∧
    fetch_sleeper_data c1lr c1rr c1ur = .ok (some c1data) ∧
    c1data.standings.map (fun e => e.fpts) = [100] ∧ (100 : ℚ) ≠ 0 := by
  refine ⟨rfl, ?_, by simp [c1data, c1entry], by norm_num⟩
  have h1 : buildUserMap [.vDict [("user_id", .vStr "u1"), ("display_name", .vStr "Alice")]] =
      .ok [(.vStr "u1", .vStr "Alice")] := by
    simp [buildUserMap, buildUserMap.go, pySubscr, dictLookup, mapInsert, mapInsertHashable, pyHashable, pyEq]
  have h2 : buildStandings [(.vStr "u1", .vStr "Alice")] [c1roster] = .ok [c1entry] := by
    simp [buildStandings, mkEntry, dictGet, dictLookup, mapContains, mapContainsB, pyHashable, mapGetD, pyTruthy,
      pyEq, List.any, List.find?, c1roster, c1settings, c1entry]
    norm_num [computeFpts, pyFloat]
  have hbody : fetchBody c1lr c1rr c1ur = .ok c1data := by
    simp [fetchBody, getResp, dictGet, dictLookup, pyIter, c1lr, c1rr, c1ur, h1, h2,
      pySortStandings, pyInsertSorted, c1data]
  simp [fetch_sleeper_data, hbody]

/-- C1 (amended): every entry a successful fetch produces takes its `fpts`
from the safe coercion of the two settings fields after defaulting a missing
field to `0`; the coercion yields `0.0` whenever `float()` raises on either
value (for example on an empty or non-numeric string), and otherwise yields
`float(fpts) + float(fpts_decimal)/100`, which is non-negative for
non-negative inputs.  A missing field contributes `0` to the sum rather than
zeroing the whole value. -/
theorem c1_fpts_amended :
    (∀ lr rr ur d, fetch_sleeper_data lr rr ur = .ok (some d) →
        ∀ e ∈ d.standings, ∃ um roster, mkEntry um roster = .ok (some e) ∧
          e.fpts = computeFpts (settingsField roster "fpts") (settingsField roster "fpts_decimal")) ∧
    (∀ fr fd : PyVal, ((∃ er, pyFloat fr = .error er) ∨ (∃ er, pyFloat fd = .error er)) →
        computeFpts fr fd = 0) ∧
    (∀ (fr fd : PyVal) (a b : ℚ), pyFloat fr = .ok a → pyFloat fd = .ok b →
        computeFpts fr fd = a + b / 100 ∧ (0 ≤ a → 0 ≤ b → 0 ≤ computeFpts fr fd)) ∧
    pyFloat (.vStr "") = .error .valueError ∧ pyFloat (.vStr "abc") = .error .valueError := by
  refine ⟨?_, ?_, ?_, rfl, rfl⟩
  · intro lr rr ur d h e he
    obtain ⟨users, um, rosters, pre, _, hS, hT⟩ := fetch_ok_parts h
    have he' : e ∈ pre := (pySortStandings_perm hT).mem_iff.mp he
    obtain ⟨r, hr, hmk⟩ := buildStandings_mem hS e he'
    exact ⟨um, r, hmk, (mkEntry_ok_some hmk).2.2.2.2.2.1⟩
  · intro fr fd h
    rcases h with ⟨er, he⟩ | ⟨er, he⟩
    · cases hfd : pyFloat fd <;> simp [computeFpts, he, hfd]
    · cases hfr : pyFloat fr <;> simp [computeFpts, he, hfr]
  · intro fr fd a b hfr hfd
    have hval : computeFpts fr fd = a + b / 100 := by simp [computeFpts, hfr, hfd]
    refine ⟨hval, fun ha hb => ?_⟩
    rw [hval]
    have : (0 : ℚ) ≤ b / 100 := div_nonneg hb (by norm_num)
    linarith

/-- C1 witness: the amended coercion rules at concrete values. -/
theorem c1_fpts_amended_witness :
    computeFpts (.vStr "abc") (.vInt 5) = 0 ∧
    computeFpts (.vInt 3) (.vInt 50) = ((3 : ℤ) : ℚ) + ((50 : ℤ) : ℚ) / 100 ∧
    0 ≤ computeFpts (.vInt 3) (.vInt 50) :=
  ⟨c1_fpts_amended.2.1 _ _ (Or.inl ⟨.valueError, c1_fpts_amended.2.2.2.2⟩),
   (c1_fpts_amended.2.2.1 (.vInt 3) (.vInt 50) ((3 : ℤ) : ℚ) ((50 : ℤ) : ℚ) rfl rfl).1,
   (c1_fpts_amended.2.2.1 (.vInt 3) (.vInt 50) ((3 : ℤ) : ℚ) ((50 : ℤ) : ℚ) rfl rfl).2
     (by norm_num) (by norm_num)⟩

/-- C3 counterexample: the claim says every combination of responses yields a
report or `None`, but with all three requests succeeding and a user record
lacking `user_id`, the comprehension raises `KeyError`, which the handler
(which catches only `RequestException`) does not catch — nothing is
returned. -/
theorem c3_totality_counterexample :
    fetch_sleeper_data c3lr c3rr c3ur = .error (.keyError "user_id") ∧
    ¬ ∃ o : Option LeagueData, fetch_sleeper_data c3lr c3rr c3ur = .ok o := by
  have h : fetch_sleeper_data c3lr c3rr c3ur = .error (.keyError "user_id") := by
    simp [fetch_sleeper_data, fetchBody, getResp, dictGet, dictLookup, pyIter,
      buildUserMap, buildUserMap.go, pySubscr, c3lr, c3rr, c3ur]
  refine ⟨h, ?_⟩
  rintro ⟨o, ho⟩
  rw [h] at ho
  exact absurd ho (by simp)

/-- C3 (amended): a `RequestException` on any of the three requests makes
`fetch_sleeper_data` return `None` with no partial standings — the league
request failing aborts everything, and a later request failing aborts after
only the earlier responses were read; any exception that escapes the
function is never a `RequestException` (those are always caught), but
malformed record shapes can raise uncaught faults such as `KeyError`. -/
theorem c3_fetch_failure_amended :
    (∀ (msg : String) (rr ur : HttpResult),
        fetch_sleeper_data (.failure msg) rr ur = .ok none) ∧
    (∀ (lb nm : PyVal) (msg : String) (ur : HttpResult),
        dictGet lb "name" (.vStr "Your Dynasty League") = .ok nm →
        fetch_sleeper_data (.success lb) (.failure msg) ur = .ok none) ∧
    (∀ (lb nm rb : PyVal) (msg : String),
        dictGet lb "name" (.vStr "Your Dynasty League") = .ok nm →
        fetch_sleeper_data (.success lb) (.success rb) (.failure msg) = .ok none) ∧
    (∀ (lr rr ur : HttpResult) (e : PyErr),
        fetch_sleeper_data lr rr ur = .error e → ∀ msg, e ≠ .requestException msg) :=
  ⟨fetch_league_failure,
   fun _ _ msg ur hN => fetch_rosters_failure msg ur hN,
   fun _ _ rb msg hN => fetch_users_failure rb msg hN,
   fun _ _ _ _ h => fetch_error_not_requestException h⟩

/-- C3 witness: a failing rosters request at a concrete league body yields
`None`. -/
theorem c3_fetch_failure_amended_witness :
    fetch_sleeper_data (.success (.vDict [("name", .vStr "L")])) (.failure "boom")
      (.success (.vList [])) = .ok none :=
  c3_fetch_failure_amended.2.1 _ (.vStr "L") "boom" _ rfl

/-- C4 counterexample: the claim says a roster whose `owner_id` is not a key
of the user index is excluded with no error, but for a truthy unhashable
`owner_id` (here a non-empty list, which no user index holds as a key)
CPython hashes the key at `owner_id in user_map` and raises
`TypeError: unhashable type`, which nothing catches: the loop body errors
and the whole fetch raises instead of excluding the roster. -/
theorem c4_owner_filter_counterexample :
    mapContainsB cUm (ownerIdOf c4badRoster) = false ∧
    mkEntry cUm c4badRoster = .error .typeError ∧
    fetch_sleeper_data c4lr c4rr c4ur = .error .typeError := by
  refine ⟨rfl, ?_, ?_⟩
  · simp [mkEntry, dictGet, dictLookup, mapContains, pyHashable, pyTruthy, c4badRoster]
  · have h1 : buildUserMap [.vDict [("user_id", .vStr "u1"), ("display_name", .vStr "Alice")]] =
        .ok cUm := by
      simp [buildUserMap, buildUserMap.go, pySubscr, dictLookup, mapInsert, mapInsertHashable,
        pyHashable, pyEq, cUm]
    have h2 : buildStandings cUm [c4badRoster] = .error .typeError := by
      simp [buildStandings, mkEntry, dictGet, dictLookup, mapContains, pyHashable, pyTruthy,
        c4badRoster]
    have hbody : fetchBody c4lr c4rr c4ur = .error .typeError := by
      simp [fetchBody, getResp, dictGet, dictLookup, pyIter, c4lr, c4rr, c4ur, h1, h2]
    simp [fetch_sleeper_data, hbody]

/-- C4 (amended): a roster record whose `owner_id` is falsy (absent, `None`,
or empty) is skipped before the membership test, with no entry and no error;
one whose `owner_id` is hashable but not a key of the user map is likewise
skipped with no entry and no error; but a truthy unhashable `owner_id` (a
list or dict) makes `owner_id in user_map` raise an uncaught `TypeError`.
Every other well-shaped roster (per the `RawRoster` shape of the data model:
`metadata` and `settings` absent or records) yields exactly one entry, and a
successful loop produces exactly one entry per entry-yielding roster. -/
theorem c4_owner_filter :
    (∀ (um : List (PyVal × PyVal)) (kvs : List (String × PyVal)),
        pyTruthy (ownerIdOf (.vDict kvs)) = false → mkEntry um (.vDict kvs) = .ok none) ∧
    (∀ (um : List (PyVal × PyVal)) (kvs : List (String × PyVal)),
        pyTruthy (ownerIdOf (.vDict kvs)) = true →
        pyHashable (ownerIdOf (.vDict kvs)) = true →
        mapContainsB um (ownerIdOf (.vDict kvs)) = false →
        mkEntry um (.vDict kvs) = .ok none) ∧
    (∀ (um : List (PyVal × PyVal)) (kvs : List (String × PyVal)),
        pyTruthy (ownerIdOf (.vDict kvs)) = true →
        pyHashable (ownerIdOf (.vDict kvs)) = false →
        mkEntry um (.vDict kvs) = .error .typeError) ∧
    (∀ (um : List (PyVal × PyVal)) (kvs : List (String × PyVal)),
        WellShapedRoster (.vDict kvs) → includedRoster um (.vDict kvs) = true →
        ∃ e, mkEntry um (.vDict kvs) = .ok (some e)) ∧
    (∀ (um : List (PyVal × PyVal)) (kvs : List (String × PyVal)),
        WellShapedRoster (.vDict kvs) →
        yieldsEntry um (.vDict kvs) = includedRoster um (.vDict kvs)) ∧
    (∀ (um : List (PyVal × PyVal)) (rosters : List PyVal) (l : List StandingEntry),
        buildStandings um rosters = .ok l → l.length = rosters.countP (yieldsEntry um)) := by
  refine ⟨fun um kvs h => mkEntry_skip_falsy h,
    fun um kvs ht hh hC => mkEntry_skip_notfound ht hh hC,
    fun um kvs ht hh => mkEntry_unhashable_raises ht hh,
    fun um kvs hws hinc => mkEntry_included hws hinc,
    ?_, fun um rosters l h => buildStandings_length h⟩
  intro um kvs hws
  cases ht : pyTruthy (ownerIdOf (.vDict kvs)) with
  | false => simp [yieldsEntry, mkEntry_skip_falsy ht, includedRoster, ht]
  | true =>
    cases hh : pyHashable (ownerIdOf (.vDict kvs)) with
    | false => simp [yieldsEntry, mkEntry_unhashable_raises ht hh, includedRoster, ht, hh]
    | true =>
      cases hC : mapContainsB um (ownerIdOf (.vDict kvs)) with
      | false => simp [yieldsEntry, mkEntry_skip_notfound ht hh hC, includedRoster, ht, hh, hC]
      | true =>
        have hinc : includedRoster um (.vDict kvs) = true := by
          simp [includedRoster, ht, hh, hC]
        obtain ⟨e, he⟩ := mkEntry_included hws hinc
        simp [yieldsEntry, he, hinc]

/-- C4 witness: with the user map knowing only `u1`, a roster owned by the
unknown hashable `zz` is skipped without error, one owned by the unhashable
list value raises `TypeError`, and one owned by `u1` yields an entry. -/
theorem c4_owner_filter_witness :
    mkEntry cUm (.vDict [("owner_id", .vStr "zz")]) = .ok none ∧
    mkEntry cUm (.vDict [("owner_id", .vList [.vStr "x"])]) = .error .typeError ∧
    ∃ e, mkEntry cUm (.vDict [("owner_id", .vStr "u1")]) = .ok (some e) :=
  ⟨c4_owner_filter.2.1 cUm _
      (by simp [ownerIdOf, dictLookup, pyTruthy])
      (by simp [ownerIdOf, dictLookup, pyHashable])
      (by simp [mapContainsB, ownerIdOf, dictLookup, pyEq, cUm]),
   c4_owner_filter.2.2.1 cUm _
      (by simp [ownerIdOf, dictLookup, pyTruthy])
      (by simp [ownerIdOf, dictLookup, pyHashable]),
   c4_owner_filter.2.2.2.1 cUm _
      (by simp [WellShapedRoster, dictLookup, RecordOrAbsent])
      (by simp [includedRoster, ownerIdOf, dictLookup, pyTruthy, pyHashable, mapContainsB,
        pyEq, cUm])⟩

/-- C10: the win, loss and tie counts are copied verbatim from the roster
settings into the entry (only a missing key defaults to `0`); the entry
comparison uses the stored `wins` value directly as the first tuple
component; and concretely, string wins values flow through to the output and
are ordered by string comparison (`"9"` sorts above `"10"`). -/
theorem c10_counts_verbatim :
    (∀ (um : List (PyVal × PyVal)) (roster : PyVal) (e : StandingEntry),
        mkEntry um roster = .ok (some e) →
        e.wins = settingsField roster "wins" ∧
        e.losses = settingsField roster "losses" ∧
        e.ties = settingsField roster "ties") ∧
    (∀ a b : StandingEntry, pyEq a.wins b.wins = false → pyKeyLt a b = pyLt a.wins b.wins) ∧
    (fetch_sleeper_data c10lr c10rr c10ur = .ok (some c10data) ∧
      c10data.standings.map (fun e => e.wins) = [.vStr "9", .vStr "10"]) := by
  refine ⟨?_, ?_, ?_, by simp [c10data, c10e9, c10e10]⟩
  · intro um roster e h
    have hh := mkEntry_ok_some h
    exact ⟨hh.2.2.1, hh.2.2.2.1, hh.2.2.2.2.1⟩
  · intro a b h
    simp [pyKeyLt, h]
  · have h1 : buildUserMap
        [ .vDict [("user_id", .vStr "u9"), ("display_name", .vStr "Bob")],
          .vDict [("user_id", .vStr "u10"), ("display_name", .vStr "Carol")] ] =
        .ok [(.vStr "u9", .vStr "Bob"), (.vStr "u10", .vStr "Carol")] := by
      simp [buildUserMap, buildUserMap.go, pySubscr, dictLookup, mapInsert, mapInsertHashable, pyHashable, pyEq]
    have h2 : buildStandings [(.vStr "u9", .vStr "Bob"), (.vStr "u10", .vStr "Carol")]
        [c10r10, c10r9] = .ok [c10e10, c10e9] := by
      simp [buildStandings, mkEntry, dictGet, dictLookup, mapContains, mapContainsB, pyHashable, mapGetD, pyTruthy,
        pyEq, List.any, List.find?, c10r9, c10r10, c10e9, c10e10]
      norm_num [computeFpts, pyFloat]
    have h3 : pySortStandings [c10e10, c10e9] = .ok [c10e9, c10e10] := by
      simp [pySortStandings, pyInsertSorted, pyKeyLt, pyEq, pyLt, strLt, strLt.go,
        c10e9, c10e10]
    have hbody : fetchBody c10lr c10rr c10ur = .ok c10data := by
      simp [fetchBody, getResp, dictGet, dictLookup, pyIter, c10lr, c10rr, c10ur,
        h1, h2, h3, c10data]
    simp [fetch_sleeper_data, hbody]

/-- C10 witness: verbatim copy and direct key participation at the concrete
string-wins entries. -/
theorem c10_counts_verbatim_witness :
    pyKeyLt c10e10 c10e9 = pyLt c10e10.wins c10e9.wins ∧
    c10e9.wins = settingsField c10r9 "wins" :=
  ⟨c10_counts_verbatim.2.1 c10e10 c10e9 (by simp [c10e9, c10e10, pyEq]),
   (c10_counts_verbatim.1 [(.vStr "u9", .vStr "Bob")] c10r9 c10e9 (by
      simp [mkEntry, dictGet, dictLookup, mapContains, mapContainsB, pyHashable, mapGetD, pyTruthy, pyEq,
        List.any, List.find?, c10r9, c10e9]
      norm_num [computeFpts, pyFloat])).1⟩

/-- C2: the standings a successful fetch returns are pairwise non-ascending
in the lexicographic `(wins, fpts)` key order whenever the wins are numeric;
the sort is a stable permutation — it preserves the input list up to
reordering and, for every key value, keeps the entries of that key in their
original relative order; and on the concrete input A(10, 1000.5),
B(10, 1200.0), C(9, 2000.0) in input order A, B, C the output order is
B, A, C. -/
theorem c2_sort_descending_stable :
    (∀ (lr rr ur : HttpResult) (d : LeagueData),
        fetch_sleeper_data lr rr ur = .ok (some d) →
        (∀ e ∈ d.standings, numericWins e) → d.standings.Pairwise keyGe) ∧
    (∀ (pre out : List StandingEntry), pySortStandings pre = .ok out →
        out.Perm pre ∧ ((∀ e ∈ pre, numericWins e) → ∀ k : ℚ × ℚ,
          out.filter (fun e => decide (entryKeyQ e = k)) =
            pre.filter (fun e => decide (entryKeyQ e = k)))) ∧
    (fetch_sleeper_data c2lr c2rr c2ur = .ok (some c2data) ∧
      c2data.standings.map (fun e => e.team_name) = [.vStr "B", .vStr "A", .vStr "C"]) := by
  refine ⟨?_, ?_, ?_, by simp [c2data, c2eA, c2eB, c2eC]⟩
  · intro lr rr ur d h hnum
    obtain ⟨users, um, rosters, pre, _, hS, hT⟩ := fetch_ok_parts h
    have hnum_pre : ∀ e ∈ pre, numericWins e := fun e he =>
      hnum e ((pySortStandings_perm hT).mem_iff.mpr he)
    exact pySortStandings_sorted hT hnum_pre
  · intro pre out h
    exact ⟨pySortStandings_perm h, fun hnum k => pySortStandings_filter h hnum k⟩
  · have h1 : buildUserMap
        [ .vDict [("user_id", .vStr "u1"), ("display_name", .vStr "a")],
          .vDict [("user_id", .vStr "u2"), ("display_name", .vStr "b")],
          .vDict [("user_id", .vStr "u3"), ("display_name", .vStr "c")] ] =
        .ok [(.vStr "u1", .vStr "a"), (.vStr "u2", .vStr "b"), (.vStr "u3", .vStr "c")] := by
      simp [buildUserMap, buildUserMap.go, pySubscr, dictLookup, mapInsert, mapInsertHashable, pyHashable, pyEq]
    have h2 : buildStandings
        [(.vStr "u1", .vStr "a"), (.vStr "u2", .vStr "b"), (.vStr "u3", .vStr "c")]
        [c2rA, c2rB, c2rC] = .ok [c2eA, c2eB, c2eC] := by
      simp [buildStandings, mkEntry, dictGet, dictLookup, mapContains, mapContainsB, pyHashable, mapGetD, pyTruthy,
        pyEq, List.any, List.find?, c2rA, c2rB, c2rC, c2eA, c2eB, c2eC]
      norm_num [computeFpts, pyFloat]
    have h3 : pySortStandings [c2eA, c2eB, c2eC] = .ok [c2eB, c2eA, c2eC] := by
      norm_num [pySortStandings, pyInsertSorted, pyKeyLt, pyEq, pyLt, c2eA, c2eB, c2eC]
    have hbody : fetchBody c2lr c2rr c2ur = .ok c2data := by
      simp [fetchBody, getResp, dictGet, dictLookup, pyIter, c2lr, c2rr, c2ur,
        h1, h2, h3, c2data]
    simp [fetch_sleeper_data, hbody]

/-- C2 witness: the sortedness part applied to the concrete run. -/
theorem c2_sort_descending_stable_witness : c2data.standings.Pairwise keyGe :=
  c2_sort_descending_stable.1 c2lr c2rr c2ur c2data c2_sort_descending_stable.2.2.1
    (by simp [c2data, c2eA, c2eB, c2eC, numericWins, asNum?])
